import Mathlib

/-!
Verification of the query-orchestration pipeline of the RAG chatbot
(`src/services/query_service.py`, `src/services/validation_service.py`,
`src/services/retrieval_service.py`, `src/api/routers/chat.py`).

The Python code is shallowly embedded: floats become rationals (`ℚ`),
Python dicts from the search backend become a typed payload of optional
fields, the remote calls (qdrant search, OpenRouter generation, the random
UUID source) become explicit parameters of the pipeline, and every
function is a computable Lean definition mirroring the source line by
line.  The list of remote calls actually performed by a pipeline run is
threaded through explicitly so that claims of the form "no remote call is
made" are statable.
-/

set_option allowUnsafeReducibility true in
attribute [semireducible] Rat.mul Rat.inv Rat.add Rat.sub Rat.ofScientific

namespace RAG

/-- Python `str.lower()` (the strings handled by this code are ASCII). -/
def pyLower (s : String) : String :=
  String.mk (s.toList.map Char.toLower)

/-- Python `str.strip()` with no argument: remove leading and trailing
whitespace. -/
def pyStrip (s : String) : String :=
  String.mk
    (((s.toList.dropWhile Char.isWhitespace).reverse.dropWhile Char.isWhitespace).reverse)

/-- Helper for `pySplit`: walk the characters, accumulating the current
word (reversed). -/
def splitWsAux : List Char → List Char → List String
  | [], acc => if acc = [] then [] else [String.mk acc.reverse]
  | c :: cs, acc =>
      if c.isWhitespace then
        (if acc = [] then [] else [String.mk acc.reverse]) ++ splitWsAux cs []
      else splitWsAux cs (c :: acc)

/-- Python `str.split()` with no argument: split on whitespace runs and
discard empty pieces. -/
def pySplit (s : String) : List String :=
  splitWsAux s.toList []

/-- Whether `pat` is an initial segment of `l`. -/
def leadsWith : List Char → List Char → Bool
  | [], _ => true
  | _ :: _, [] => false
  | a :: as, b :: bs => a = b && leadsWith as bs

/-- Whether `pat` occurs as a contiguous sublist of `l`. -/
def containsSubList (pat : List Char) : List Char → Bool
  | [] => leadsWith pat []
  | c :: cs => leadsWith pat (c :: cs) || containsSubList pat cs

/-- Fuel-driven body of `removeSub`: delete every (non-overlapping,
leftmost-first) occurrence of `pat`; the fuel is the input length, enough
because every step consumes at least one character when `pat ≠ []`. -/
def removeSubAux (pat : List Char) : ℕ → List Char → List Char
  | 0, l => l
  | _ + 1, [] => []
  | n + 1, c :: cs =>
      if pat ≠ [] ∧ leadsWith pat (c :: cs) then
        removeSubAux pat n (List.drop (pat.length - 1) cs)
      else c :: removeSubAux pat n cs

/-- Python `s.replace(pat, "")`: delete all occurrences of `pat`. -/
def removeSub (s pat : String) : String :=
  String.mk (removeSubAux pat.toList s.toList.length s.toList)

/-- Python `set(text.split())`: the set of whitespace-separated words. -/
def wordSet (s : String) : Finset String :=
  (pySplit s).toFinset

/-- The floor of a rational, computed by flooring integer division. -/
def ratFloor (x : ℚ) : ℤ :=
  Int.fdiv x.num x.den

/-- Round to the nearest integer, ties to even: the rounding used by
Python `format(x, ".2f")` (modelled ideally on rationals rather than on
binary floats). -/
def roundHalfEven (x : ℚ) : ℤ :=
  let f := ratFloor x
  let frac := x - (f : ℚ)
  if frac < 1/2 then f
  else if 1/2 < frac then f + 1
  else if f % 2 = 0 then f else f + 1

/-- Python `f"{x:.2f}"`: two-decimal fixed-point formatting. -/
def fmt2 (x : ℚ) : String :=
  let n := roundHalfEven (x * 100)
  let sign := if n < 0 then "-" else ""
  let m := n.natAbs
  let fp := m % 100
  let fps := if fp < 10 then "0" ++ toString fp else toString fp
  sign ++ toString (m / 100) ++ "." ++ fps

/-- `RetrievedChunk` (src/models/document_models.py).  UUID-valued fields
are modelled by their canonical 32-hex-digit string form. -/
structure RetrievedChunk where
  chunk_id : String
  document_id : String
  content : String
  similarity_score : ℚ
  source_path : String
  chunk_index : ℤ
deriving DecidableEq

/-- Python `pattern in s`. -/
def containsSub (s pat : String) : Bool :=
  containsSubList pat.toList s.toList

/-- The fixed indicator table of
`ValidationService._find_external_indicators`. -/
def externalIndicatorTable : List (String × String) :=
  [("according to my knowledge", "External knowledge claim"),
   ("i know that", "Personal knowledge claim"),
   ("from general knowledge", "General knowledge claim"),
   ("in my experience", "Personal experience claim"),
   ("recently", "Time-sensitive external info"),
   ("currently", "Current events claim"),
   ("today", "Current events claim"),
   ("this year", "Current events claim"),
   ("latest", "Recent information claim"),
   ("new developments", "Recent information claim")]

/-- `ValidationService._find_external_indicators`. -/
def find_external_indicators (response : String) : List String :=
  externalIndicatorTable.filterMap (fun p =>
    if containsSub (pyLower response) p.1 then
      some (p.2 ++ ": \x27" ++ p.1 ++ "\x27")
    else none)

/-- `ValidationService._calculate_content_overlap`. -/
def calculate_content_overlap (response : String) (retrieved_chunks : List RetrievedChunk) : ℚ :=
  if pyStrip response = "" then 0
  else
    let response_words := wordSet (pyLower response)
    let all_chunk_content :=
      String.intercalate " " (retrieved_chunks.map (fun c => pyLower c.content))
    let chunk_words := wordSet all_chunk_content
    if response_words = ∅ then 0
    else ((response_words ∩ chunk_words).card : ℚ) / response_words.card

/-- `ValidationService._calculate_grounding_score`. -/
def calculate_grounding_score (response : String) (retrieved_chunks : List RetrievedChunk)
    (external_indicators : List String) : ℚ :=
  let content_overlap := calculate_content_overlap response retrieved_chunks
  let penalty := (external_indicators.length : ℚ) * (3/10)
  let grounding_score := max 0 (content_overlap - penalty)
  min 1 (max 0 grounding_score)

/-- The `validation_details` dict built by
`ValidationService.validate_response_grounding`. -/
structure ValidationDetails where
  grounding_score : ℚ
  content_overlap : ℚ
  external_indicators : List String
  validation_passed : Bool
  issues : List String
deriving DecidableEq

/-- `ValidationService.validate_response_grounding`. -/
def validate_response_grounding (response : String) (retrieved_chunks : List RetrievedChunk) :
    Bool × ValidationDetails :=
  if retrieved_chunks = [] then
    (false,
     { grounding_score := 0, content_overlap := 0, external_indicators := [],
       validation_passed := false,
       issues := ["No retrieved content to validate against"] })
  else
    let external_indicators := find_external_indicators response
    let content_overlap := calculate_content_overlap response retrieved_chunks
    let lowOverlap : Bool := decide (content_overlap < 3/10)
    let grounding_score := calculate_grounding_score response retrieved_chunks external_indicators
    let lowScore : Bool := decide (grounding_score < 7/10)
    let issues :=
      external_indicators
        ++ (if lowOverlap then ["Content overlap too low: " ++ fmt2 content_overlap] else [])
        ++ (if lowScore then ["Grounding score too low: " ++ fmt2 grounding_score] else [])
    let validation_passed : Bool := external_indicators.isEmpty && !lowOverlap && !lowScore
    (validation_passed,
     { grounding_score := grounding_score, content_overlap := content_overlap,
       external_indicators := external_indicators,
       validation_passed := validation_passed, issues := issues })

/-- Python `max(c.similarity_score for c in chunks)` (callers guard against
the empty list). -/
def maxSimilarity : List RetrievedChunk → ℚ
  | [] => 0
  | c :: cs => cs.foldl (fun acc x => max acc x.similarity_score) c.similarity_score

/-- Python `sum(len(chunk.content) for chunk in chunks)`. -/
def totalContentLength (chunks : List RetrievedChunk) : ℕ :=
  (chunks.map (fun c => c.content.length)).sum

/-- `ValidationService.validate_context_sufficiency`.  The `query`
argument is unused in the source as well. -/
def validate_context_sufficiency (query : String) (retrieved_chunks : List RetrievedChunk) :
    Bool × String :=
  if retrieved_chunks = [] then
    (false, "No context retrieved for the query")
  else
    let current_max_score := maxSimilarity retrieved_chunks
    if current_max_score < 35/100 then
      (false, "No high-similarity content found (highest score: "
        ++ fmt2 current_max_score ++ ")")
    else
      let total_content_length := totalContentLength retrieved_chunks
      if total_content_length < 50 then
        (false, "Insufficient context length: " ++ toString total_content_length
          ++ " characters")
      else
        (true, "Context is sufficient")

/-- The token normalization of `ValidationService.validate_selection_context`:
`re.sub(r"[^ws]", "", text.lower())` (word chars and whitespace kept),
then split into a set. -/
def normalizeTokens (text : String) : Finset String :=
  let cleaned := String.mk
    (((pyLower text).toList).filter (fun c => c.isAlphanum ∨ c = '_' ∨ c.isWhitespace))
  (pySplit cleaned).toFinset

/-- `ValidationService.validate_selection_context`.  The debug-logging
block for zero overlap has no effect on the result; every branch past the
length guard returns sufficient. -/
def validate_selection_context (query : String) (selected_text : String) : Bool × String :=
  if selected_text = "" ∨ (pyStrip selected_text).length < 5 then
    (false, "Selected text is too short or empty")
  else
    let query_tokens := normalizeTokens query
    let selected_tokens := normalizeTokens selected_text
    let overlap := query_tokens ∩ selected_tokens
    let overlap_ratio := (overlap.card : ℚ) / (max query_tokens.card 1 : ℕ)
    if overlap_ratio < 1/10 then
      if overlap.card > 0 then
        (true, "Selection context is sufficient (low, non-zero overlap)")
      else
        (true, "Selection context valid (Bypassed strict overlap check)")
    else
      (true, "Selection context is sufficient")

/-! ### Retrieval service (src/services/retrieval_service.py) -/

/-- The typed view of a qdrant hit payload used by
`RetrievalService.retrieve_relevant_chunks`: `payload.get(key)` becomes an
optional field. -/
structure HitPayload where
  chunk_id : Option String
  document_id : Option String
  content : Option String
  source_path : Option String
  chunk_index : Option ℤ
deriving DecidableEq

/-- A scored point returned by the similarity-search backend. -/
structure ScoredHit where
  score : ℚ
  payload : HitPayload
deriving DecidableEq

/-- Left brace character (written by code point to keep it out of string
literals). -/
def lbrace : Char := Char.ofNat 123

/-- Right brace character. -/
def rbrace : Char := Char.ofNat 125

/-- Python `s.strip(braces)`: remove leading and trailing brace
characters. -/
def stripBraces (s : String) : String :=
  let isBrace := fun c => c = lbrace ∨ c = rbrace
  let l := (s.toList.dropWhile isBrace).reverse
  String.mk ((l.dropWhile isBrace).reverse)

/-- A hex digit as accepted by Python `int(s, 16)`. -/
def isHexChar (c : Char) : Bool :=
  c.isDigit ∨ ('a' ≤ c ∧ c ≤ 'f') ∨ ('A' ≤ c ∧ c ≤ 'F')

/-- Python `uuid.UUID(s)`: strip `urn:` and `uuid:` markers, braces and
hyphens; the rest must be exactly 32 hex digits.  The parsed UUID value is
represented by its lower-cased 32-hex-digit string. -/
def pyUUIDParse (s : String) : Option String :=
  let hex := removeSub (stripBraces (removeSub (removeSub s "urn:") "uuid:")) "-"
  if hex.length = 32 ∧ hex.toList.all isHexChar then some (pyLower hex) else none

/-- Model of `uuid.uuid5(uuid.NAMESPACE_DNS, name)`: a deterministic
function of the name.  The SHA-1 internals are irrelevant to every claim,
so the value is modelled as an injective tagging of the name. -/
def uuid5 (name : String) : String := "uuid5:" ++ name

/-- One iteration of the hit-mapping loop in
`RetrievalService.retrieve_relevant_chunks`.  `fresh` is the stream of
random UUID strings drawn by `uuid.uuid4()` and `k` the number of draws
made so far; the result pairs the produced chunk (`none` when the hit is
dropped by the `except` handler, which in the source happens exactly when
`uuid.UUID(str(chunk_id_val))` raises) with the new draw count. -/
def mapHit (fresh : ℕ → String) (k : ℕ) (h : ScoredHit) : Option RetrievedChunk × ℕ :=
  let step1 : String × ℕ :=
    match h.payload.chunk_id with
    | none => (fresh k, k + 1)
    | some s => if s = "" then (fresh k, k + 1) else (s, k)
  let chunk_id_val := step1.1
  let k1 := step1.2
  let step2 : String × ℕ :=
    match h.payload.document_id with
    | none => (fresh k1, k1 + 1)
    | some s => if s = "" then (fresh k1, k1 + 1) else (s, k1)
  let document_id_val := step2.1
  let k2 := step2.2
  let document_id_obj :=
    match pyUUIDParse document_id_val with
    | some u => u
    | none => uuid5 document_id_val
  match pyUUIDParse chunk_id_val with
  | some cu =>
      (some { chunk_id := cu, document_id := document_id_obj,
              content := h.payload.content.getD "",
              similarity_score := h.score,
              source_path := h.payload.source_path.getD "",
              chunk_index := h.payload.chunk_index.getD 0 }, k2)
  | none => (none, k2)

/-- The hit-mapping loop of `RetrievalService.retrieve_relevant_chunks`:
a dropped hit is skipped, never fatal. -/
def mapHits (fresh : ℕ → String) : ℕ → List ScoredHit → List RetrievedChunk
  | _, [] => []
  | k, h :: rest =>
      match mapHit fresh k h with
      | (some c, k2) => c :: mapHits fresh k2 rest
      | (none, k2) => mapHits fresh k2 rest

/-- `RetrievalService.retrieve_relevant_chunks`.  The qdrant
`query_points` call is a remote call whose outcome is passed in: an
exception from the backend is caught and turned into the empty list. -/
def retrieve_relevant_chunks (fresh : ℕ → String)
    (searchOutcome : Except String (List ScoredHit)) : List RetrievedChunk :=
  match searchOutcome with
  | .error _ => []
  | .ok hits => mapHits fresh 0 hits

/-- `RetrievalService.retrieve_from_selected_text`: no index search, one
synthetic chunk wrapping the selected text; `chunk_id` and `document_id`
are fresh random UUIDs. -/
def retrieve_from_selected_text (fresh : ℕ → String) (selected_text : String) :
    List RetrievedChunk :=
  [{ chunk_id := fresh 0, document_id := fresh 1, content := selected_text,
     similarity_score := 1, source_path := "user_selection", chunk_index := 0 }]

/-! ### Query service (src/services/query_service.py) -/

/-- `QueryRequest` (src/models/query.py); the opaque `session_id` is
irrelevant to the pipeline and omitted. -/
structure QueryRequest where
  query : String
  query_type : String
  selected_text : Option String
deriving DecidableEq

/-- `QueryResponse` (src/models/query.py); the random `query_id` is an
opaque fresh value and omitted. -/
structure QueryResponse where
  response : String
  status : String
  sources : List String
  confidence : ℚ
deriving DecidableEq

/-- A remote call performed by the pipeline (embedding, index search, or
generation). -/
inductive RemoteCall where
  | embed (text : String)
  | search
  | generate
deriving DecidableEq

/-- The environment of one pipeline run: the stream of random UUIDs, the
outcome the similarity-search backend would produce, and the outcome the
generator would produce. -/
structure PipelineEnv where
  fresh : ℕ → String
  searchOutcome : Except String (List ScoredHit)
  generationOutcome : Except String String

/-- The confidence computation of
`QueryService._generate_response_with_context` (lines 274-279). -/
def computeConfidence (retrieved_chunks : List RetrievedChunk) : ℚ :=
  if retrieved_chunks = [] then 0
  else
    let avg_similarity :=
      (retrieved_chunks.map (fun c => c.similarity_score)).sum / retrieved_chunks.length
    min 1 (avg_similarity + 2/10)

/-- `QueryService._generate_response_with_context`: on generator success
the trimmed text and the similarity-based confidence; a generator
exception is caught inside this function and turned into an error-bearing
text with confidence 0 (it never escapes). -/
def generate_response_with_context (gen : Except String String)
    (retrieved_chunks : List RetrievedChunk) : String × ℚ :=
  match gen with
  | .ok response_text => (pyStrip response_text, computeConfidence retrieved_chunks)
  | .error e =>
      ("I encountered an error while generating a response based on the book content. Error details: "
        ++ e, 0)

/-- `QueryService._process_full_book_query`, paired with the list of
remote calls performed.  A failed grounding check only logs on this path;
the response is returned with status success regardless. -/
def process_full_book_query (env : PipelineEnv) (req : QueryRequest) :
    QueryResponse × List RemoteCall :=
  let retrieved_chunks := retrieve_relevant_chunks env.fresh env.searchOutcome
  let calls0 : List RemoteCall := [.embed req.query, .search]
  let suff := validate_context_sufficiency req.query retrieved_chunks
  if suff.1 then
    let gen := generate_response_with_context env.generationOutcome retrieved_chunks
    let calls1 := calls0 ++ [.generate]
    let _grounding := validate_response_grounding gen.1 retrieved_chunks
    ({ response := gen.1, status := "success", sources := [], confidence := gen.2 }, calls1)
  else
    ({ response := "I cannot answer this question based on the available book content. "
         ++ suff.2,
       status := "refused", sources := [], confidence := 0 }, calls0)

/-- `QueryService._process_selection_query`, paired with the list of
remote calls performed.  On this path a failed grounding check replaces
the answer with a refusal. -/
def process_selection_query (env : PipelineEnv) (req : QueryRequest) :
    QueryResponse × List RemoteCall :=
  let selOk : Bool := match req.selected_text with
    | none => false
    | some s => !(s = "")
  if selOk then
    let sel := req.selected_text.getD ""
    let suff := validate_selection_context req.query sel
    if suff.1 then
      let retrieved_chunks := retrieve_from_selected_text env.fresh sel
      let calls0 : List RemoteCall := [.embed sel]
      let gen := generate_response_with_context env.generationOutcome retrieved_chunks
      let calls1 := calls0 ++ [.generate]
      let grounding := validate_response_grounding gen.1 retrieved_chunks
      if grounding.1 then
        ({ response := gen.1, status := "success", sources := ["user_selection"],
           confidence := gen.2 }, calls1)
      else
        ({ response := "I cannot provide an answer that is fully grounded in the selected text.",
           status := "refused", sources := [], confidence := 0 }, calls1)
    else
      ({ response := "The selected text does not contain enough information to answer your question. "
           ++ suff.2,
         status := "refused", sources := [], confidence := 0 }, [])
  else
    ({ response := "No selected text provided for selection-based query.",
       status := "refused", sources := [], confidence := 0 }, [])

/-- `QueryService.process_query`: mode dispatch; an invalid mode raises a
`ValueError` that the surrounding handler converts into an error
response. -/
def process_query (env : PipelineEnv) (req : QueryRequest) :
    QueryResponse × List RemoteCall :=
  if req.query_type = "full_book" then process_full_book_query env req
  else if req.query_type = "selection_based" then process_selection_query env req
  else
    ({ response := "An error occurred while processing your request: Invalid query type: "
         ++ req.query_type,
       status := "error", sources := [], confidence := 0 }, [])

/-! ### HTTP boundary (src/api/routers/chat.py) -/

deriving instance DecidableEq for Except

/-- `chat_endpoint`: the input guards raise `HTTPException` (status code
and detail) before the query service ever runs; otherwise the pipeline
result is returned. -/
def chat_endpoint (max_query_length : ℕ) (env : PipelineEnv) (req : QueryRequest) :
    Except (ℕ × String) (QueryResponse × List RemoteCall) :=
  if req.query = "" ∨ (pyStrip req.query).length = 0 then
    .error (400, "Query cannot be empty")
  else if req.query.length > max_query_length then
    .error (400, "Query exceeds maximum length of " ++ toString max_query_length
      ++ " characters")
  else if ¬ (req.query_type = "full_book" ∨ req.query_type = "selection_based") then
    .error (400, "Invalid query type")
  else if req.query_type = "selection_based"
      ∧ (req.selected_text = none ∨ req.selected_text = some "") then
    .error (400, "Selected text required for selection-based queries")
  else
    .ok (process_query env req)

/-- Whether the hit-mapping loop keeps a hit, assuming the random supply
yields well-formed UUIDs: a hit is dropped exactly when it carries a
present, non-empty `chunk_id` that fails to parse as a UUID. -/
def keepHit (p : HitPayload) : Bool :=
  match p.chunk_id with
  | none => true
  | some s => s = "" || (pyUUIDParse s).isSome

/-! ### Concrete inputs used by counterexamples and witnesses -/

/-- A well-formed 32-hex-digit chunk identifier. -/
def hexIdA : String := "00000000000000000000000000000001"

/-- A second well-formed identifier. -/
def hexIdB : String := "00000000000000000000000000000002"

/-- A third well-formed identifier, distinct from the other two. -/
def hexIdC : String := "00000000000000000000000000000003"

/-- A well-formed hit with high score and long content. -/
def c1Hit : ScoredHit :=
  { score := 9/10,
    payload := { chunk_id := some hexIdA, document_id := some hexIdB,
                 content := some "Humanoid robots combine perception, planning and control into one embodied system.",
                 source_path := some "ch1.md", chunk_index := some 0 } }

/-- Environment whose retrieval succeeds and whose generation call
fails. -/
def c1Env : PipelineEnv :=
  { fresh := fun _ => "", searchOutcome := .ok [c1Hit],
    generationOutcome := .error "connection refused" }

/-- A full-book request. -/
def c1Req : QueryRequest :=
  { query := "What is a humanoid robot?", query_type := "full_book", selected_text := none }

/-- Environment whose generation succeeds with text sharing no word with
the selection. -/
def c2Env : PipelineEnv :=
  { fresh := fun _ => "", searchOutcome := .ok [], generationOutcome := .ok "zzz qqq www" }

/-- A selection-based request with a valid selection. -/
def c2Req : QueryRequest :=
  { query := "Explain the concept", query_type := "selection_based",
    selected_text := some "alpha beta gamma delta" }

/-- Environment for the full-book witness runs: retrieval succeeds and
generation succeeds. -/
def c2WitnessEnv : PipelineEnv :=
  { fresh := fun _ => "", searchOutcome := .ok [c1Hit],
    generationOutcome := .ok "Humanoid robots combine perception, planning and control." }

/-- A low-similarity chunk with long content (for the sufficiency
witness). -/
def c3Chunk : RetrievedChunk :=
  { chunk_id := hexIdA, document_id := hexIdB,
    content := "This content is long enough to pass the length rule of the gate easily.",
    similarity_score := 1/5, source_path := "ch2.md", chunk_index := 1 }

/-- A chunk whose content is exactly the external-knowledge marker word,
so that word overlap is perfect yet an external flag fires. -/
def c4Chunk : RetrievedChunk :=
  { chunk_id := hexIdA, document_id := hexIdB, content := "currently",
    similarity_score := 1, source_path := "ch3.md", chunk_index := 2 }

/-- A chunk for the grounding-pass witness: the response equals the
content, no marker fires. -/
def c4PassChunk : RetrievedChunk :=
  { chunk_id := hexIdA, document_id := hexIdB, content := "alpha beta",
    similarity_score := 1, source_path := "ch3.md", chunk_index := 3 }

/-- A chunk with similarity 1/2 for the confidence witness. -/
def c5Chunk : RetrievedChunk :=
  { chunk_id := hexIdA, document_id := hexIdB, content := "some content",
    similarity_score := 1/2, source_path := "ch4.md", chunk_index := 4 }

/-- Environment whose similarity-search backend errors. -/
def c6Env : PipelineEnv :=
  { fresh := fun _ => "", searchOutcome := .error "backend unreachable",
    generationOutcome := .ok "unused" }

/-- A one-token full-book request (the spec scenario). -/
def c6Req : QueryRequest :=
  { query := "robots", query_type := "full_book", selected_text := none }

/-- A benign environment for the boundary counterexample. -/
def c7Env : PipelineEnv :=
  { fresh := fun _ => "", searchOutcome := .ok [], generationOutcome := .ok "x" }

/-- A selection-based request with no selected text. -/
def c7Req : QueryRequest :=
  { query := "What is a robot?", query_type := "selection_based", selected_text := none }

/-- Environment for the selection-mode witness: generation echoes the
selection. -/
def c8Env : PipelineEnv :=
  { fresh := fun _ => hexIdA, searchOutcome := .ok [],
    generationOutcome := .ok "alpha beta gamma delta" }

/-- A selection-based request whose selection is echoed by `c8Env`. -/
def c8Req : QueryRequest :=
  { query := "explain alpha", query_type := "selection_based",
    selected_text := some "alpha beta gamma delta" }

/-- A hit whose only defect is a malformed (non-UUID) `chunk_id`. -/
def c9BadHit : ScoredHit :=
  { score := 9/10,
    payload := { chunk_id := some "not-a-uuid", document_id := some "physical_ai_course",
                 content := some "hello world content", source_path := some "p.md",
                 chunk_index := some 0 } }

/-- A hit with no `chunk_id` at all (to be synthesized from the random
supply). -/
def c9MissingIdHit : ScoredHit :=
  { score := 9/10,
    payload := { chunk_id := none, document_id := some hexIdB,
                 content := some "hello world content", source_path := some "p.md",
                 chunk_index := some 0 } }

/-- One random supply for `c9MissingIdHit`. -/
def c9FreshA : ℕ → String := fun _ => hexIdA

/-- A different random supply for `c9MissingIdHit`. -/
def c9FreshB : ℕ → String := fun _ => hexIdC

/-! ### Claim theorems -/

/-- C10: for every query text and selected text, the selection-mode
sufficiency check returns insufficient exactly when the stripped selected
text has fewer than 5 characters; in particular the query/selection token
overlap never causes a refusal. -/
theorem c10_selection_sufficiency (query selected_text : String) :
    (validate_selection_context query selected_text).1 = false ↔
      (pyStrip selected_text).length < 5 := by
  unfold validate_selection_context
  by_cases h1 : selected_text = "" ∨ (pyStrip selected_text).length < 5
  · rw [if_pos h1]
    simp only [true_iff]
    rcases h1 with h | h
    · subst h; decide
    · exact h
  · rw [if_neg h1]
    push_neg at h1
    have h2 : ¬ (pyStrip selected_text).length < 5 := not_lt.mpr h1.2
    simp only [h2, iff_false]
    intro hc
    split at hc
    · split at hc <;> simp at hc
    · simp at hc

/-- C3: the context-sufficiency gate evaluates its three rules in order
with first failure winning: empty evidence, then maximum similarity below
0.35 (reporting the observed maximum), then total content length below 50
(reporting the observed length); otherwise sufficient.  The second
conjunct holds for every non-empty chunk list, regardless of chunk count
or content length. -/
theorem c3_sufficiency_rules (query : String) (chunks : List RetrievedChunk) :
    (chunks = [] → validate_context_sufficiency query chunks
        = (false, "No context retrieved for the query")) ∧
    (chunks ≠ [] → maxSimilarity chunks < 35/100 →
      validate_context_sufficiency query chunks
        = (false, "No high-similarity content found (highest score: "
            ++ fmt2 (maxSimilarity chunks) ++ ")")) ∧
    (chunks ≠ [] → ¬ maxSimilarity chunks < 35/100 → totalContentLength chunks < 50 →
      validate_context_sufficiency query chunks
        = (false, "Insufficient context length: " ++ toString (totalContentLength chunks)
            ++ " characters")) ∧
    (chunks ≠ [] → ¬ maxSimilarity chunks < 35/100 → ¬ totalContentLength chunks < 50 →
      validate_context_sufficiency query chunks = (true, "Context is sufficient")) := by
  refine ⟨fun h1 => ?_, fun h1 h2 => ?_, fun h1 h2 h3 => ?_, fun h1 h2 h3 => ?_⟩
  · subst h1; rfl
  · simp [validate_context_sufficiency, h1, h2]
  · simp [validate_context_sufficiency, h1, h2, h3]
  · simp [validate_context_sufficiency, h1, h2, h3]

/-- C3 witness: a single low-similarity chunk with long content is
refused by rule 2 with the observed maximum in the reason. -/
theorem c3_sufficiency_rules_witness :
    validate_context_sufficiency "q" [c3Chunk]
      = (false, "No high-similarity content found (highest score: 0.20)") := by
  have h := (c3_sufficiency_rules "q" [c3Chunk]).2.1 (by decide) (by decide)
  rw [h]
  decide

/-- C5: when generation succeeds on a non-empty chunk list, the returned
confidence is `min 1 (average similarity + 0.2)`, and it lies in `[0, 1]`
whenever every similarity does. -/
theorem c5_confidence_formula (gen : Except String String) (t : String)
    (chunks : List RetrievedChunk) (hne : chunks ≠ []) (hok : gen = .ok t) :
    (generate_response_with_context gen chunks).2
        = min 1 ((chunks.map (fun c => c.similarity_score)).sum / chunks.length + 2/10) ∧
    ((∀ c ∈ chunks, 0 ≤ c.similarity_score ∧ c.similarity_score ≤ 1) →
      0 ≤ (generate_response_with_context gen chunks).2 ∧
        (generate_response_with_context gen chunks).2 ≤ 1) := by
  have hconf : (generate_response_with_context gen chunks).2 = computeConfidence chunks := by
    rw [hok]; rfl
  have hval : computeConfidence chunks
      = min 1 ((chunks.map (fun c => c.similarity_score)).sum / chunks.length + 2/10) := by
    unfold computeConfidence
    rw [if_neg hne]
  refine ⟨hconf.trans hval, fun hb => ?_⟩
  rw [hconf, hval]
  constructor
  · apply le_min (by norm_num)
    apply add_nonneg _ (by norm_num)
    apply div_nonneg _ (by positivity)
    apply List.sum_nonneg
    intro x hx
    obtain ⟨c, hc, rfl⟩ := List.mem_map.1 hx
    exact (hb c hc).1
  · exact min_le_left _ _

/-- C5 witness: a single chunk of similarity 1/2 yields confidence 7/10,
inside `[0, 1]`. -/
theorem c5_confidence_formula_witness :
    (generate_response_with_context (.ok "fine") [c5Chunk]).2
        = min 1 (([c5Chunk].map (fun c => c.similarity_score)).sum / ([c5Chunk] : List RetrievedChunk).length + 2/10) ∧
    0 ≤ (generate_response_with_context (.ok "fine") [c5Chunk]).2 ∧
    (generate_response_with_context (.ok "fine") [c5Chunk]).2 ≤ 1 := by
  have h := c5_confidence_formula (.ok "fine") "fine" [c5Chunk] (by decide) rfl
  exact ⟨h.1, h.2 (by decide)⟩

/-- C6: when the similarity-search backend errors, the retriever returns
the empty chunk list instead of propagating, and the full-book pipeline
turns this into a refusal with empty sources and confidence 0. -/
theorem c6_backend_failure_fail_open (env : PipelineEnv) (req : QueryRequest) (e : String)
    (hsearch : env.searchOutcome = .error e) :
    retrieve_relevant_chunks env.fresh env.searchOutcome = [] ∧
    (process_full_book_query env req).1 =
      { response := "I cannot answer this question based on the available book content. No context retrieved for the query",
        status := "refused", sources := [], confidence := 0 } := by
  have hret : retrieve_relevant_chunks env.fresh env.searchOutcome = [] := by
    rw [hsearch]; rfl
  refine ⟨hret, ?_⟩
  unfold process_full_book_query
  rw [hret]
  simp [show validate_context_sufficiency req.query []
      = (false, "No context retrieved for the query") from rfl]

/-- C6 witness: the concrete one-token scenario with an unreachable
backend is refused with no sources and confidence 0. -/
theorem c6_backend_failure_fail_open_witness :
    retrieve_relevant_chunks c6Env.fresh c6Env.searchOutcome = [] ∧
    (process_full_book_query c6Env c6Req).1 =
      { response := "I cannot answer this question based on the available book content. No context retrieved for the query",
        status := "refused", sources := [], confidence := 0 } :=
  c6_backend_failure_fail_open c6Env c6Req "backend unreachable" rfl

/-- C1 counterexample: a full-book run whose generation call fails with a
transport error returns the failure detail with confidence 0, but with
status "success", not status "error". -/
theorem c1_counterexample :
    c1Env.generationOutcome = .error "connection refused" ∧
    (process_query c1Env c1Req).1 =
      { response := "I encountered an error while generating a response based on the book content. Error details: connection refused",
        status := "success", sources := [], confidence := 0 } ∧
    (process_query c1Env c1Req).1.status ≠ "error" := by decide

/-- C1 amended: on a full-book query that passes the sufficiency gate, a
failed generation call is swallowed inside the generation helper: the
response carries the failure detail and confidence 0 and exactly one
generation attempt is made (no retry), but the status is "success", not
"error". -/
theorem c1_generation_failure_swallowed (env : PipelineEnv) (req : QueryRequest) (e : String)
    (hgen : env.generationOutcome = .error e)
    (hsuff : (validate_context_sufficiency req.query
        (retrieve_relevant_chunks env.fresh env.searchOutcome)).1 = true) :
    (process_full_book_query env req).1.status = "success" ∧
    (process_full_book_query env req).1.response =
      "I encountered an error while generating a response based on the book content. Error details: "
        ++ e ∧
    (process_full_book_query env req).1.confidence = 0 ∧
    (process_full_book_query env req).2.count RemoteCall.generate = 1 := by
  unfold process_full_book_query
  simp [hsuff, generate_response_with_context, hgen, List.count_cons]

/-- C1 witness: the amended statement at the concrete failing
environment. -/
theorem c1_generation_failure_swallowed_witness :
    (process_full_book_query c1Env c1Req).1.status = "success" ∧
    (process_full_book_query c1Env c1Req).1.response =
      "I encountered an error while generating a response based on the book content. Error details: "
        ++ "connection refused" ∧
    (process_full_book_query c1Env c1Req).1.confidence = 0 ∧
    (process_full_book_query c1Env c1Req).2.count RemoteCall.generate = 1 :=
  c1_generation_failure_swallowed c1Env c1Req "connection refused" rfl (by decide)

/-- C2 counterexample: a selection-based run whose generation succeeds
but whose grounding check fails is blocked: the answer is replaced by a
refusal, so grounding failure does change the response status in
selection mode. -/
theorem c2_counterexample :
    c2Env.generationOutcome = .ok "zzz qqq www" ∧
    (process_query c2Env c2Req).1 =
      { response := "I cannot provide an answer that is fully grounded in the selected text.",
        status := "refused", sources := [], confidence := 0 } := by decide

/-- C2 amended: a failed grounding check is advisory only on the
full-book path (the status is "success" whenever the sufficiency gate
passes, whatever the grounding outcome), but on the selection path a
failed grounding check yields status "refused". -/
theorem c2_grounding_policy (env : PipelineEnv) (req : QueryRequest) :
    ((validate_context_sufficiency req.query
        (retrieve_relevant_chunks env.fresh env.searchOutcome)).1 = true →
      (process_full_book_query env req).1.status = "success") ∧
    (∀ sel t, req.selected_text = some sel → sel ≠ "" →
      env.generationOutcome = .ok t →
      (validate_response_grounding (pyStrip t) (retrieve_from_selected_text env.fresh sel)).1
        = false →
      (process_selection_query env req).1.status = "refused") := by
  constructor
  · intro hsuff
    unfold process_full_book_query
    simp [hsuff]
  · intro sel t hsel hne hgen hg
    unfold process_selection_query
    rw [hsel]
    simp only [hne, Option.getD_some, generate_response_with_context, hgen, hg]
    split
    · split
      · simp
      · rfl
    · rfl

/-- C2 witness: both parts of the amended statement at concrete inputs:
the full-book run from the C1 environment succeeds, and the concrete
blocked selection run is refused. -/
theorem c2_grounding_policy_witness :
    (process_full_book_query c1Env c1Req).1.status = "success" ∧
    (process_selection_query c2Env c2Req).1.status = "refused" :=
  ⟨(c2_grounding_policy c1Env c1Req).1 (by decide),
   (c2_grounding_policy c2Env c2Req).2 "alpha beta gamma delta" "zzz qqq www"
     rfl (by decide) rfl (by decide)⟩

/-- C4 counterexample: for the response "currently" against one chunk
whose content is "currently", the overlap ratio is 1 and the grounding
score is exactly 0.7, so the claimed pass condition holds, yet the check
fails because an external-knowledge marker fired. -/
theorem c4_counterexample :
    (validate_response_grounding "currently" [c4Chunk]).1 = false ∧
    (validate_response_grounding "currently" [c4Chunk]).2.content_overlap ≥ 3/10 ∧
    (validate_response_grounding "currently" [c4Chunk]).2.grounding_score ≥ 7/10 ∧
    ([c4Chunk] : List RetrievedChunk) ≠ [] := by decide

/-- C4 amended: the grounding check passes iff the evidence is non-empty,
no external-knowledge marker fired, the overlap ratio is at least 0.3 and
the grounding score at least 0.7; and on non-empty evidence the reported
grounding score is `max(0, overlap − 0.3 × numExternalFlags)` clamped to
`[0,1]` and the reported overlap is the computed overlap ratio. -/
theorem c4_grounding_pass_condition (response : String) (chunks : List RetrievedChunk) :
    ((validate_response_grounding response chunks).1 = true ↔
      (chunks ≠ [] ∧ find_external_indicators response = [] ∧
        calculate_content_overlap response chunks ≥ 3/10 ∧
        calculate_grounding_score response chunks (find_external_indicators response) ≥ 7/10)) ∧
    (chunks ≠ [] →
      (validate_response_grounding response chunks).2.grounding_score =
        min 1 (max 0 (calculate_content_overlap response chunks
          - 3/10 * ((find_external_indicators response).length : ℚ))) ∧
      (validate_response_grounding response chunks).2.content_overlap =
        calculate_content_overlap response chunks) := by
  by_cases hne : chunks = []
  · subst hne
    simp [validate_response_grounding]
  · have hscore : calculate_grounding_score response chunks (find_external_indicators response)
        = min 1 (max 0 (calculate_content_overlap response chunks
          - 3/10 * ((find_external_indicators response).length : ℚ))) := by
      simp only [calculate_grounding_score]
      rw [← max_assoc, max_self, mul_comm]
    constructor
    · unfold validate_response_grounding
      rw [if_neg hne]
      simp only [Bool.and_eq_true, Bool.not_eq_true', decide_eq_false_iff_not,
        List.isEmpty_iff, not_lt, ge_iff_le]
      tauto
    · intro _
      have hg1 : (validate_response_grounding response chunks).2.grounding_score
          = calculate_grounding_score response chunks (find_external_indicators response) := by
        unfold validate_response_grounding
        rw [if_neg hne]
      have hc1 : (validate_response_grounding response chunks).2.content_overlap
          = calculate_content_overlap response chunks := by
        unfold validate_response_grounding
        rw [if_neg hne]
      exact ⟨hg1.trans hscore, hc1⟩

/-- C4 witness: a fully-overlapping response with no marker passes the
check. -/
theorem c4_grounding_pass_condition_witness :
    (validate_response_grounding "alpha beta" [c4PassChunk]).1 = true :=
  ((c4_grounding_pass_condition "alpha beta" [c4PassChunk]).1).mpr (by decide)

/-- C7 counterexample: at the HTTP boundary, a selection-based request
with no selected text is rejected with a 400 error before the pipeline
runs — the caller receives an HTTP error, not a response with status
"refused". -/
theorem c7_counterexample :
    chat_endpoint 1000 c7Env c7Req
      = .error (400, "Selected text required for selection-based queries") := by decide

/-- C7 amended: a selection-based request with empty selected text is
refused by the query service before any remote call (the call list is
empty), while the HTTP endpoint never forwards such a request to the
service at all, rejecting it with an HTTP error first. -/
theorem c7_empty_selection_refused_before_remote_calls (env : PipelineEnv)
    (req : QueryRequest) (mql : ℕ)
    (hty : req.query_type = "selection_based")
    (hsel : req.selected_text = none ∨ req.selected_text = some "") :
    (process_query env req).1 =
      { response := "No selected text provided for selection-based query.",
        status := "refused", sources := [], confidence := 0 } ∧
    (process_query env req).2 = [] ∧
    ∀ r, chat_endpoint mql env req ≠ .ok r := by
  have hps : process_selection_query env req =
      ({ response := "No selected text provided for selection-based query.",
         status := "refused", sources := [], confidence := 0 }, []) := by
    unfold process_selection_query
    rcases hsel with h | h <;> rw [h] <;> rfl
  have hpq : process_query env req =
      ({ response := "No selected text provided for selection-based query.",
         status := "refused", sources := [], confidence := 0 }, []) := by
    unfold process_query
    rw [hty]
    simpa using hps
  refine ⟨by rw [hpq], by rw [hpq], ?_⟩
  intro r hok
  unfold chat_endpoint at hok
  split_ifs at hok with h1 h2 h3 h4
  exact h4 ⟨hty, hsel⟩

/-- C7 witness: the amended statement at the concrete empty-selection
request. -/
theorem c7_empty_selection_refused_before_remote_calls_witness :
    (process_query c7Env c7Req).1 =
      { response := "No selected text provided for selection-based query.",
        status := "refused", sources := [], confidence := 0 } ∧
    (process_query c7Env c7Req).2 = [] :=
  ⟨(c7_empty_selection_refused_before_remote_calls c7Env c7Req 1000 rfl (.inl rfl)).1,
   (c7_empty_selection_refused_before_remote_calls c7Env c7Req 1000 rfl (.inl rfl)).2.1⟩

/-- C8: selection mode performs no index search and wraps the selection
as exactly one synthetic chunk with similarity 1 and source path
"user_selection"; a successful selection response carries sources
`["user_selection"]` and a successful full-book response carries `[]`. -/
theorem c8_selection_mode_contract (env : PipelineEnv) (req : QueryRequest) (sel : String) :
    retrieve_from_selected_text env.fresh sel =
      [{ chunk_id := env.fresh 0, document_id := env.fresh 1, content := sel,
         similarity_score := 1, source_path := "user_selection", chunk_index := 0 }] ∧
    RemoteCall.search ∉ (process_selection_query env req).2 ∧
    ((process_selection_query env req).1.status = "success" →
      (process_selection_query env req).1.sources = ["user_selection"]) ∧
    ((process_full_book_query env req).1.status = "success" →
      (process_full_book_query env req).1.sources = []) := by
  refine ⟨rfl, ?_, ?_, ?_⟩
  · unfold process_selection_query
    rcases hselx : req.selected_text with _ | s
    · simp
    · by_cases hs : s = ""
      · simp [hs]
      · simp [hs]
        split
        · split <;> simp
        · simp
  · unfold process_selection_query
    rcases hselx : req.selected_text with _ | s
    · simp
    · by_cases hs : s = ""
      · simp [hs]
      · simp [hs]
        split
        · split <;> simp
        · simp
  · by_cases hsuff : (validate_context_sufficiency req.query
        (retrieve_relevant_chunks env.fresh env.searchOutcome)).1 = true
    · unfold process_full_book_query
      simp [hsuff]
    · unfold process_full_book_query
      simp [hsuff]

/-- C8 witness: in a concrete successful selection run the sources are
`["user_selection"]` and no search call was made. -/
theorem c8_selection_mode_contract_witness :
    RemoteCall.search ∉ (process_selection_query c8Env c8Req).2 ∧
    (process_selection_query c8Env c8Req).1.sources = ["user_selection"] :=
  ⟨(c8_selection_mode_contract c8Env c8Req "x").2.1,
   (c8_selection_mode_contract c8Env c8Req "x").2.2.1 (by decide)⟩

/-- Helper for C9: `keepHit` is false exactly for a present, non-empty,
unparsable `chunk_id`. -/
theorem keepHit_false_iff (p : HitPayload) :
    keepHit p = false ↔ ∃ s, p.chunk_id = some s ∧ s ≠ "" ∧ pyUUIDParse s = none := by
  unfold keepHit
  rcases hc : p.chunk_id with _ | s
  · simp
  · cases hp : pyUUIDParse s <;> simp [hp]

/-- Helper for C9: the mapping of one hit yields no chunk exactly when
`keepHit` rejects its payload, provided the random supply yields
well-formed UUID strings. -/
theorem mapHit_none_iff (fresh : ℕ → String)
    (hfresh : ∀ n, (pyUUIDParse (fresh n)).isSome = true) (k : ℕ) (h : ScoredHit) :
    (mapHit fresh k h).1 = none ↔ keepHit h.payload = false := by
  unfold mapHit keepHit
  rcases hc : h.payload.chunk_id with _ | s
  · obtain ⟨u, hu⟩ := Option.isSome_iff_exists.mp (hfresh k)
    simp [hu]
  · by_cases hs : s = ""
    · obtain ⟨u, hu⟩ := Option.isSome_iff_exists.mp (hfresh k)
      simp [hs, hu]
    · cases hp : pyUUIDParse s <;> simp [hs, hp]

set_option maxHeartbeats 2000000 in
/-- C9 amended: a hit is dropped (and only that hit) exactly when it has
a present, non-empty `chunk_id` that fails to parse; any produced chunk
defaults missing `content`, `source_path` and `chunk_index` and carries
the hit score; a malformed `document_id` is synthesized deterministically
(independently of the random supply) via `uuid5`; and the number of
chunks returned equals the number of kept hits, so a malformed hit is
never fatal to the whole call.  Missing identifiers are filled from the
random `uuid4` supply, hence not deterministically. -/
theorem c9_hit_mapping (fresh : ℕ → String)
    (hfresh : ∀ n, (pyUUIDParse (fresh n)).isSome = true) :
    (∀ k h, ((mapHit fresh k h).1 = none ↔
        ∃ s, h.payload.chunk_id = some s ∧ s ≠ "" ∧ pyUUIDParse s = none)) ∧
    (∀ k h c, (mapHit fresh k h).1 = some c →
        c.content = h.payload.content.getD "" ∧
        c.source_path = h.payload.source_path.getD "" ∧
        c.chunk_index = h.payload.chunk_index.getD 0 ∧
        c.similarity_score = h.score) ∧
    (∀ k h s, h.payload.document_id = some s → s ≠ "" → pyUUIDParse s = none →
        ∀ c, (mapHit fresh k h).1 = some c → c.document_id = uuid5 s) ∧
    (∀ k hits, (mapHits fresh k hits).length
        = (hits.filter (fun x => keepHit x.payload)).length) := by
  refine ⟨?_, ?_, ?_, ?_⟩
  · intro k h
    exact (mapHit_none_iff fresh hfresh k h).trans (keepHit_false_iff h.payload)
  · intro k h c hsome
    unfold mapHit at hsome
    rcases hc : h.payload.chunk_id with _ | s <;> rw [hc] at hsome
    · obtain ⟨u, hu⟩ := Option.isSome_iff_exists.mp (hfresh k)
      simp [hu] at hsome
      obtain ⟨rfl⟩ := hsome
      exact ⟨rfl, rfl, rfl, rfl⟩
    · by_cases hs : s = ""
      · obtain ⟨u, hu⟩ := Option.isSome_iff_exists.mp (hfresh k)
        simp [hs, hu] at hsome
        obtain ⟨rfl⟩ := hsome
        exact ⟨rfl, rfl, rfl, rfl⟩
      · cases hp : pyUUIDParse s
        · simp [hs, hp] at hsome
        · simp [hs, hp] at hsome
          obtain ⟨rfl⟩ := hsome
          exact ⟨rfl, rfl, rfl, rfl⟩
  · intro k h s hd hs hp c hsome
    rcases hc : h.payload.chunk_id with _ | s2
    · obtain ⟨u, hu⟩ := Option.isSome_iff_exists.mp (hfresh k)
      unfold mapHit at hsome
      rw [hc, hd] at hsome
      simp [hs, hp, hu] at hsome
      obtain ⟨rfl⟩ := hsome
      rfl
    · by_cases hs2 : s2 = ""
      · obtain ⟨u, hu⟩ := Option.isSome_iff_exists.mp (hfresh k)
        unfold mapHit at hsome
        rw [hc, hd] at hsome
        simp [hs2, hs, hp, hu] at hsome
        obtain ⟨rfl⟩ := hsome
        rfl
      · rcases hp2 : pyUUIDParse s2 with _ | u2
        · have hnone : (mapHit fresh k h).1 = none :=
            (mapHit_none_iff fresh hfresh k h).mpr
              ((keepHit_false_iff h.payload).mpr ⟨s2, hc, hs2, hp2⟩)
          rw [hnone] at hsome
          exact Option.noConfusion hsome
        · unfold mapHit at hsome
          rw [hc, hd] at hsome
          simp [hs2, hs, hp, hp2] at hsome
          obtain ⟨rfl⟩ := hsome
          rfl
  · intro k hits
    induction hits generalizing k with
    | nil => rfl
    | cons h rest ih =>
      by_cases hk : keepHit h.payload = false
      · have hnone := (mapHit_none_iff fresh hfresh k h).mpr hk
        unfold mapHits
        rcases hm : mapHit fresh k h with ⟨oc, k2⟩
        rw [hm] at hnone
        simp only at hnone
        subst hnone
        simp [List.filter_cons, hk, ih]
      · have hsome : ¬ ((mapHit fresh k h).1 = none) :=
          fun hn => hk ((mapHit_none_iff fresh hfresh k h).mp hn)
        unfold mapHits
        rcases hm : mapHit fresh k h with ⟨oc, k2⟩
        rw [hm] at hsome
        rcases oc with _ | c
        · exact absurd rfl hsome
        · have hkt : keepHit h.payload = true := by
            cases hkk : keepHit h.payload
            · exact absurd hkk hk
            · rfl
          simp [List.filter_cons, hkt, ih]

/-- C9 counterexample: a hit whose only defect is a malformed `chunk_id`
is dropped rather than having its identifier synthesized (the retrieval
result is empty), and for a hit with a missing identifier the result
depends on the random UUID supply, so the synthesis is not
deterministic. -/
theorem c9_counterexample :
    retrieve_relevant_chunks (fun _ => "") (.ok [c9BadHit]) = [] ∧
    retrieve_relevant_chunks c9FreshA (.ok [c9MissingIdHit])
      ≠ retrieve_relevant_chunks c9FreshB (.ok [c9MissingIdHit]) := by decide

/-- C9 witness: the amended drop rule applied at the malformed concrete
hit. -/
theorem c9_hit_mapping_witness :
    (mapHit c9FreshA 0 c9BadHit).1 = none :=
  ((c9_hit_mapping c9FreshA
      (fun _ => show (pyUUIDParse hexIdA).isSome = true by decide)).1 0 c9BadHit).mpr
    ⟨"not-a-uuid", rfl, by decide, by decide⟩

end RAG
